import Mathlib

/-!
Shallow embedding of the resilient-scatter-gather aggregation gateway
(internal/handler/chat_summary.go, internal/models/response.go,
internal/services vector client wrapper) and proofs about its
scatter-gather aggregation policy.

The handler variant embedded here is the one taking an explicit
slaTimeout, whose collection loop is a select over the results channel
and the context deadline (ctx.Done).  A run of the loop is modelled by
the sequence of events the select consumes: each event is either one
serviceResult taken from the channel or the firing of the deadline.
-/

namespace RSG

/-- Payload of the identity dependency (proto GetUserResponse). -/
structure GetUserResponse where
  userId : String
  username : String
  email : String
  role : String
deriving DecidableEq

/-- Payload of the access dependency (proto CheckAccessResponse). -/
structure CheckAccessResponse where
  allowed : Bool
  permissions : List String
  reason : String
deriving DecidableEq

/-- One item of the optional context payload (proto ContextItem). -/
structure ContextItem where
  content : String
deriving DecidableEq

/-- Payload of the optional context dependency (proto GetContextResponse). -/
structure GetContextResponse where
  items : List ContextItem
  totalCount : Int
deriving DecidableEq

/-- Go serviceResult: the value each dependency goroutine sends on the
results channel.  Pointer fields become Options; err nil becomes none. -/
structure ServiceResult where
  userData : Option GetUserResponse := none
  permissionsData : Option CheckAccessResponse := none
  contextData : Option GetContextResponse := none
  err : Option String := none
  serviceName : String
deriving DecidableEq

/-- The five return values of scatterGather, as one record.  Go errors are
modelled as their message strings (fmt.Errorf with %w concatenates). -/
structure GatherReturn where
  userData : Option GetUserResponse
  permissionsData : Option CheckAccessResponse
  contextData : Option GetContextResponse
  degraded : Bool
  err : Option String
deriving DecidableEq

/-- One iteration input of the select in the collection loop: either a
serviceResult received from the channel, or ctx.Done firing. -/
inductive Event where
  | result (r : ServiceResult)
  | ctxDone
deriving DecidableEq

/-- The collection loop of scatterGather (chat_summary.go, the for
received less-than 3 select loop).  State arguments mirror the local
variables userData, permissionsData, contextData, degraded, received.
Returns none when the event trace ends while the loop would still block
(cannot happen in a real run, where ctx.Done eventually fires). -/
def collect : List Event → Option GetUserResponse → Option CheckAccessResponse →
    Option GetContextResponse → Bool → Nat → Option GatherReturn
  | evs, userData, permissionsData, contextData, degraded, received =>
    if received < 3 then
      match evs with
      | [] => none
      | Event.result r :: rest =>
        if r.serviceName = "UserService" then
          match r.err with
          | some e => some ⟨none, none, none, false, some ("user service failed: " ++ e)⟩
          | none => collect rest r.userData permissionsData contextData degraded (received + 1)
        else if r.serviceName = "PermissionsService" then
          match r.err with
          | some e => some ⟨none, none, none, false, some ("permissions service failed: " ++ e)⟩
          | none => collect rest userData r.permissionsData contextData degraded (received + 1)
        else if r.serviceName = "VectorMemoryService" then
          match r.err with
          | some _ => collect rest userData permissionsData none true (received + 1)
          | none => collect rest userData permissionsData r.contextData degraded (received + 1)
        else
          collect rest userData permissionsData contextData degraded (received + 1)
      | Event.ctxDone :: _ =>
        if userData.isNone || permissionsData.isNone then
          some ⟨none, none, none, false, some "critical services timeout"⟩
        else
          some ⟨userData, permissionsData, contextData, true, none⟩
    else
      some ⟨userData, permissionsData, contextData, degraded, none⟩

/-- Unfolding equation of collect on the empty trace. -/
theorem collect_nil (u : Option GetUserResponse) (p : Option CheckAccessResponse)
    (c : Option GetContextResponse) (d : Bool) (recv : Nat) :
    collect [] u p c d recv = if recv < 3 then none else some ⟨u, p, c, d, none⟩ := by
  rw [collect.eq_def]

/-- Unfolding equation of collect on a channel-receive event. -/
theorem collect_cons_result (sr : ServiceResult) (rest : List Event)
    (u : Option GetUserResponse) (p : Option CheckAccessResponse)
    (c : Option GetContextResponse) (d : Bool) (recv : Nat) :
    collect (Event.result sr :: rest) u p c d recv =
      if recv < 3 then
        if sr.serviceName = "UserService" then
          match sr.err with
          | some e => some ⟨none, none, none, false, some ("user service failed: " ++ e)⟩
          | none => collect rest sr.userData p c d (recv + 1)
        else if sr.serviceName = "PermissionsService" then
          match sr.err with
          | some e => some ⟨none, none, none, false, some ("permissions service failed: " ++ e)⟩
          | none => collect rest u sr.permissionsData c d (recv + 1)
        else if sr.serviceName = "VectorMemoryService" then
          match sr.err with
          | some _ => collect rest u p none true (recv + 1)
          | none => collect rest u p sr.contextData d (recv + 1)
        else
          collect rest u p c d (recv + 1)
      else some ⟨u, p, c, d, none⟩ := by
  rw [collect.eq_def]

/-- Unfolding equation of collect when the deadline event is consumed. -/
theorem collect_cons_ctxDone (rest : List Event) (u : Option GetUserResponse)
    (p : Option CheckAccessResponse) (c : Option GetContextResponse) (d : Bool) (recv : Nat) :
    collect (Event.ctxDone :: rest) u p c d recv =
      if recv < 3 then
        if u.isNone || p.isNone then
          some ⟨none, none, none, false, some "critical services timeout"⟩
        else
          some ⟨u, p, c, true, none⟩
      else some ⟨u, p, c, d, none⟩ := by
  rw [collect.eq_def]

/-- scatterGather on a given event trace: the loop started from the
zero-initialised local variables. -/
def scatterGather (trace : List Event) : Option GatherReturn :=
  collect trace none none none false 0

/-- The three dependencies dispatched by scatterGather. -/
inductive Dep where
  | user
  | perms
  | vector
deriving DecidableEq

/-- The per-run outcome of the three dependency calls: exactly what each
goroutine would place in its serviceResult (payload and err as returned
by the client call). -/
structure Outcomes where
  userPayload : Option GetUserResponse
  userErr : Option String
  permPayload : Option CheckAccessResponse
  permErr : Option String
  vecPayload : Option GetContextResponse
  vecErr : Option String
deriving DecidableEq

/-- The serviceResult the goroutine for dependency d sends, given the
run's outcomes (mirrors the three go func literals in scatterGather). -/
def depResult (o : Outcomes) : Dep → ServiceResult
  | Dep.user => { userData := o.userPayload, err := o.userErr, serviceName := "UserService" }
  | Dep.perms => { permissionsData := o.permPayload, err := o.permErr, serviceName := "PermissionsService" }
  | Dep.vector => { contextData := o.vecPayload, err := o.vecErr, serviceName := "VectorMemoryService" }

/-- The channel-receive events of an arrival order. -/
def eventsOf (o : Outcomes) (order : List Dep) : List Event :=
  order.map (fun d => Event.result (depResult o d))

/-- A run in which all consumed events are channel receives, in the given
arrival order (the deadline never fires before the loop exits). -/
def runAll (order : List Dep) (o : Outcomes) : Option GatherReturn :=
  scatterGather (eventsOf o order)

/-- A run in which the dependencies in arrived are received, then the
shared deadline fires; later holds whatever events would have followed
(never consumed by the loop, modelling that late results are ignored). -/
def runWithDeadline (arrived : List Dep) (later : List Event) (o : Outcomes) :
    Option GatherReturn :=
  scatterGather (eventsOf o arrived ++ Event.ctxDone :: later)

/-- Go models.ErrorResponse. -/
structure ErrorResponse where
  error : String
  code : Nat
  message : String
deriving DecidableEq

/-- Go models.ChatSummaryResponse, without the timestamp field (wall-clock
time is not modelled; no claim mentions it).  The context field carries
the json omitempty tag, so it is absent from the body exactly when the
pointer is nil, i.e. when the Option is none. -/
structure ChatSummaryResponse where
  user : Option GetUserResponse
  permissions : Option CheckAccessResponse
  context : Option GetContextResponse
  degraded : Bool
deriving DecidableEq

/-- The structural body of an HTTP response sent by the handler. -/
inductive Body where
  | errBody (e : ErrorResponse)
  | successBody (s : ChatSummaryResponse)
deriving DecidableEq

/-- An HTTP response, as status code plus structural body. -/
structure HttpResponse where
  status : Nat
  body : Body
deriving DecidableEq

/-- Go net/http StatusText for the codes this handler uses. -/
def statusText (code : Nat) : String :=
  if code = 200 then "OK"
  else if code = 400 then "Bad Request"
  else if code = 405 then "Method Not Allowed"
  else if code = 500 then "Internal Server Error"
  else ""

/-- Go sendError: builds an ErrorResponse and sends it with the status. -/
def sendError (message : String) (statusCode : Nat) : HttpResponse :=
  ⟨statusCode, Body.errBody ⟨statusText statusCode, statusCode, message⟩⟩

/-- Go ServeHTTP on a request with the given method and query parameters,
where gather is the value scatterGather would return for this run.  The
method argument is deliberately present but unused: the source ServeHTTP
never reads r.Method. -/
def serveHTTP (method userID chatID : String) (gather : GatherReturn) : HttpResponse :=
  if userID = "" ∨ chatID = "" then
    sendError "user_id and chat_id are required" 400
  else
    match gather.err with
    | some e => sendError ("Service unavailable: " ++ e) 500
    | none =>
      ⟨200, Body.successBody
        ⟨gather.userData, gather.permissionsData, gather.contextData, gather.degraded⟩⟩

/-- A wire-level response: the status line already written plus the bytes
of the body that were written. -/
structure WireResponse where
  status : Nat
  bodyBytes : String
deriving DecidableEq

/-- Go sendJSON at the wire level: WriteHeader(statusCode) runs first, then
the JSON encoder either writes the encoded bytes or fails having written
nothing (the error is only logged).  encoded is the encoder outcome. -/
def sendJSON_wire (statusCode : Nat) (encoded : Option String) : WireResponse :=
  { status := statusCode,
    bodyBytes := match encoded with
      | some s => s
      | none => "" }

/-- Go services.VectorMemoryServiceClient.GetContext: given the underlying
call's response and error, a failed call is replaced by an empty
successful response (items empty, totalCount 0) with a nil error. -/
def vectorClientGetContext (resp : Option GetContextResponse) (err : Option String) :
    Option GetContextResponse × Option String :=
  match err with
  | some _ => (some ⟨[], 0⟩, none)
  | none => (resp, none)

/-- Whether pat occurs as a contiguous run at the front of s. -/
def charsMatch : List Char → List Char → Bool
  | [], _ => true
  | _ :: _, [] => false
  | a :: as, b :: bs => a = b && charsMatch as bs

/-- Whether pat occurs as a contiguous run anywhere in s. -/
def charsContain : List Char → List Char → Bool
  | [], pat => pat.isEmpty
  | c :: rest, pat => charsMatch pat (c :: rest) || charsContain rest pat

/-- Substring containment on strings (testify assert.Contains). -/
def strContains (s pat : String) : Bool :=
  charsContain s.toList pat.toList

/-- A concrete identity payload used by witnesses. -/
def uEx : GetUserResponse := ⟨"user123", "testuser", "", ""⟩

/-- A concrete access payload used by witnesses. -/
def pEx : CheckAccessResponse := ⟨true, ["read"], ""⟩

/-- A concrete context payload used by witnesses. -/
def cEx : GetContextResponse := ⟨[⟨"test"⟩], 1⟩

/-- Concrete outcomes in which all three dependencies succeed. -/
def oEx : Outcomes := ⟨some uEx, none, some pEx, none, some cEx, none⟩

/-- C10: whenever scatterGather returns a non-nil error, every returned
payload pointer is nil and the degraded flag is false. -/
theorem C10_no_partial_data_on_error (evs : List Event) (u : Option GetUserResponse)
    (p : Option CheckAccessResponse) (c : Option GetContextResponse) (d : Bool) (recv : Nat)
    (r : GatherReturn) (hr : collect evs u p c d recv = some r) (herr : r.err ≠ none) :
    r.userData = none ∧ r.permissionsData = none ∧ r.contextData = none ∧ r.degraded = false := by
  induction evs generalizing u p c d recv with
  | nil =>
    rw [collect_nil] at hr
    split at hr
    · exact absurd hr (by simp)
    · cases hr
      exact absurd rfl herr
  | cons ev rest ih =>
    cases ev with
    | result sr =>
      rw [collect_cons_result] at hr
      split at hr
      · split at hr
        · cases hsr : sr.err with
          | none => rw [hsr] at hr; exact ih _ _ _ _ _ hr
          | some e => rw [hsr] at hr; cases hr; exact ⟨rfl, rfl, rfl, rfl⟩
        · split at hr
          · cases hsr : sr.err with
            | none => rw [hsr] at hr; exact ih _ _ _ _ _ hr
            | some e => rw [hsr] at hr; cases hr; exact ⟨rfl, rfl, rfl, rfl⟩
          · split at hr
            · cases hsr : sr.err with
              | none => rw [hsr] at hr; exact ih _ _ _ _ _ hr
              | some e => rw [hsr] at hr; exact ih _ _ _ _ _ hr
            · exact ih _ _ _ _ _ hr
      · cases hr
        exact absurd rfl herr
    | ctxDone =>
      rw [collect_cons_ctxDone] at hr
      split at hr
      · split at hr
        · cases hr; exact ⟨rfl, rfl, rfl, rfl⟩
        · cases hr; exact absurd rfl herr
      · cases hr
        exact absurd rfl herr

/-- C10 witness: a concrete failing run in which the identity dependency
errors and the returned record carries no payloads and degraded false. -/
theorem C10_witness :
    collect (eventsOf ⟨none, some "boom", some pEx, none, some cEx, none⟩ [Dep.user])
        none none none false 0 =
      some ⟨none, none, none, false, some "user service failed: boom"⟩ ∧
    (none : Option GetUserResponse) = none ∧ (none : Option CheckAccessResponse) = none ∧
    (none : Option GetContextResponse) = none ∧ (false : Bool) = false := by
  have h := C10_no_partial_data_on_error
    (eventsOf ⟨none, some "boom", some pEx, none, some cEx, none⟩ [Dep.user])
    none none none false 0
    ⟨none, none, none, false, some "user service failed: boom"⟩ (by decide) (by decide)
  exact ⟨by decide, h.1, h.2.1, h.2.2.1, h.2.2.2⟩

/-- C1: if the shared deadline fires while the collection loop is still
running (fewer than three outcomes consumed, no critical error among
them), scatterGather returns the critical-timeout failure unless both
critical payloads are already stored, in which case it returns a
successful degraded result with the stored critical payloads and no
context payload, never consuming the later events. -/
theorem C1_deadline_policy (o : Outcomes) (arrived : List Dep) (later : List Event)
    (hlen : arrived.length < 3)
    (hu : Dep.user ∈ arrived → o.userErr = none)
    (hp : Dep.perms ∈ arrived → o.permErr = none) :
    runWithDeadline arrived later o =
      some (if ((if Dep.user ∈ arrived then o.userPayload else none).isSome &&
                (if Dep.perms ∈ arrived then o.permPayload else none).isSome)
            then ⟨if Dep.user ∈ arrived then o.userPayload else none,
                  if Dep.perms ∈ arrived then o.permPayload else none,
                  none, true, none⟩
            else ⟨none, none, none, false, some "critical services timeout"⟩) := by
  rcases arrived with _ | ⟨d1, rest1⟩
  · simp [runWithDeadline, scatterGather, eventsOf, collect_cons_ctxDone]
  rcases rest1 with _ | ⟨d2, rest2⟩
  · cases d1
    · have h1 := hu (by simp)
      simp [runWithDeadline, scatterGather, eventsOf, depResult, collect_cons_result,
        collect_cons_ctxDone, h1]
    · have h2 := hp (by simp)
      simp [runWithDeadline, scatterGather, eventsOf, depResult, collect_cons_result,
        collect_cons_ctxDone, h2]
    · rcases hv : o.vecErr with _ | e <;>
        simp [runWithDeadline, scatterGather, eventsOf, depResult, collect_cons_result,
          collect_cons_ctxDone, hv]
  rcases rest2 with _ | ⟨d3, rest3⟩
  · cases d1 <;> cases d2
    · have h1 := hu (by simp)
      simp [runWithDeadline, scatterGather, eventsOf, depResult, collect_cons_result,
        collect_cons_ctxDone, h1]
    · have h1 := hu (by simp)
      have h2 := hp (by simp)
      rcases hup : o.userPayload with _ | up <;> rcases hpp : o.permPayload with _ | pp <;>
        simp [runWithDeadline, scatterGather, eventsOf, depResult, collect_cons_result,
          collect_cons_ctxDone, h1, h2, hup, hpp]
    · have h1 := hu (by simp)
      rcases hv : o.vecErr with _ | e <;>
        simp [runWithDeadline, scatterGather, eventsOf, depResult, collect_cons_result,
          collect_cons_ctxDone, h1, hv]
    · have h1 := hu (by simp)
      have h2 := hp (by simp)
      rcases hup : o.userPayload with _ | up <;> rcases hpp : o.permPayload with _ | pp <;>
        simp [runWithDeadline, scatterGather, eventsOf, depResult, collect_cons_result,
          collect_cons_ctxDone, h1, h2, hup, hpp]
    · have h2 := hp (by simp)
      simp [runWithDeadline, scatterGather, eventsOf, depResult, collect_cons_result,
        collect_cons_ctxDone, h2]
    · have h2 := hp (by simp)
      rcases hv : o.vecErr with _ | e <;>
        simp [runWithDeadline, scatterGather, eventsOf, depResult, collect_cons_result,
          collect_cons_ctxDone, h2, hv]
    · have h1 := hu (by simp)
      rcases hv : o.vecErr with _ | e <;>
        simp [runWithDeadline, scatterGather, eventsOf, depResult, collect_cons_result,
          collect_cons_ctxDone, h1, hv]
    · have h2 := hp (by simp)
      rcases hv : o.vecErr with _ | e <;>
        simp [runWithDeadline, scatterGather, eventsOf, depResult, collect_cons_result,
          collect_cons_ctxDone, h2, hv]
    · rcases hv : o.vecErr with _ | e <;>
        simp [runWithDeadline, scatterGather, eventsOf, depResult, collect_cons_result,
          collect_cons_ctxDone, hv]
  · simp only [List.length_cons] at hlen
    omega

/-- C1 witness: both criticals already stored when the deadline fires; a
late optional result is pending but never consumed. -/
theorem C1_witness :
    runWithDeadline [Dep.user, Dep.perms]
        [Event.result (depResult oEx Dep.vector)] oEx =
      some ⟨some uEx, some pEx, none, true, none⟩ := by
  have h := C1_deadline_policy oEx [Dep.user, Dep.perms]
    [Event.result (depResult oEx Dep.vector)] (by decide)
    (fun _ => rfl) (fun _ => rfl)
  simpa using h

/-- C2: when the collection loop receives an identity or access outcome
carrying an error, it returns the failure naming that dependency at once,
whatever events would have followed and whatever was already stored, and
the handler surfaces the failure as HTTP 500 on any valid request. -/
theorem C2_critical_fail_fast (o : Outcomes) (e : String) (rest : List Event)
    (u : Option GetUserResponse) (p : Option CheckAccessResponse)
    (c : Option GetContextResponse) (d : Bool) (recv : Nat) (hrecv : recv < 3)
    (method userID chatID : String) (huid : userID ≠ "") (hcid : chatID ≠ "") :
    (o.userErr = some e →
      collect (Event.result (depResult o Dep.user) :: rest) u p c d recv =
        some ⟨none, none, none, false, some ("user service failed: " ++ e)⟩ ∧
      (serveHTTP method userID chatID
          ⟨none, none, none, false, some ("user service failed: " ++ e)⟩).status = 500) ∧
    (o.permErr = some e →
      collect (Event.result (depResult o Dep.perms) :: rest) u p c d recv =
        some ⟨none, none, none, false, some ("permissions service failed: " ++ e)⟩ ∧
      (serveHTTP method userID chatID
          ⟨none, none, none, false, some ("permissions service failed: " ++ e)⟩).status = 500) := by
  constructor
  · intro h
    constructor
    · simp [depResult, collect_cons_result, h, hrecv]
    · simp [serveHTTP, sendError, huid, hcid]
  · intro h
    constructor
    · simp [depResult, collect_cons_result, h, hrecv]
    · simp [serveHTTP, sendError, huid, hcid]

/-- C2 witness: a concrete identity failure aborts the loop immediately,
with a pending access result never consumed, and yields HTTP 500. -/
theorem C2_witness :
    collect (Event.result (depResult ⟨none, some "boom", some pEx, none, some cEx, none⟩
          Dep.user) :: [Event.result (depResult oEx Dep.perms)]) none none none false 0 =
      some ⟨none, none, none, false, some "user service failed: boom"⟩ ∧
    (serveHTTP "GET" "user123" "chat1"
        ⟨none, none, none, false, some "user service failed: boom"⟩).status = 500 := by
  have h := C2_critical_fail_fast ⟨none, some "boom", some pEx, none, some cEx, none⟩ "boom"
    [Event.result (depResult oEx Dep.perms)] none none none false 0 (by decide)
    "GET" "user123" "chat1" (by decide) (by decide)
  exact (h.1 rfl)

/-- Every error the collection loop can return blames a critical service
or the shared deadline; none blames the optional vector service. -/
theorem collect_err_classification (evs : List Event) (u : Option GetUserResponse)
    (p : Option CheckAccessResponse) (c : Option GetContextResponse) (d : Bool) (recv : Nat)
    (r : GatherReturn) (hr : collect evs u p c d recv = some r) :
    r.err = none ∨ r.err = some "critical services timeout" ∨
    (∃ msg, r.err = some ("user service failed: " ++ msg)) ∨
    (∃ msg, r.err = some ("permissions service failed: " ++ msg)) := by
  induction evs generalizing u p c d recv with
  | nil =>
    rw [collect_nil] at hr
    split at hr
    · exact absurd hr (by simp)
    · cases hr; exact Or.inl rfl
  | cons ev rest ih =>
    cases ev with
    | result sr =>
      rw [collect_cons_result] at hr
      split at hr
      · split at hr
        · cases hsr : sr.err with
          | none => rw [hsr] at hr; exact ih _ _ _ _ _ hr
          | some e => rw [hsr] at hr; cases hr; exact Or.inr (Or.inr (Or.inl ⟨e, rfl⟩))
        · split at hr
          · cases hsr : sr.err with
            | none => rw [hsr] at hr; exact ih _ _ _ _ _ hr
            | some e => rw [hsr] at hr; cases hr; exact Or.inr (Or.inr (Or.inr ⟨e, rfl⟩))
          · split at hr
            · cases hsr : sr.err with
              | none => rw [hsr] at hr; exact ih _ _ _ _ _ hr
              | some e => rw [hsr] at hr; exact ih _ _ _ _ _ hr
            · exact ih _ _ _ _ _ hr
      · cases hr; exact Or.inl rfl
    | ctxDone =>
      rw [collect_cons_ctxDone] at hr
      split at hr
      · split at hr
        · cases hr; exact Or.inr (Or.inl rfl)
        · cases hr; exact Or.inl rfl
      · cases hr; exact Or.inl rfl

/-- C3: an optional-dependency error while both criticals succeed yields a
successful result with degraded true and no context payload, in every
arrival order; moreover no error the loop can ever return names the
optional dependency, so its failure never becomes an AggregationFailure. -/
theorem C3_optional_failure_degrades (o : Outcomes) (e : String) (d1 d2 d3 : Dep)
    (h12 : d1 ≠ d2) (h13 : d1 ≠ d3) (h23 : d2 ≠ d3)
    (hu : o.userErr = none) (hp : o.permErr = none) (hv : o.vecErr = some e) :
    runAll [d1, d2, d3] o = some ⟨o.userPayload, o.permPayload, none, true, none⟩ ∧
    (∀ evs u p c d recv r, collect evs u p c d recv = some r →
      r.err = none ∨ r.err = some "critical services timeout" ∨
      (∃ msg, r.err = some ("user service failed: " ++ msg)) ∨
      (∃ msg, r.err = some ("permissions service failed: " ++ msg))) := by
  refine ⟨?_, fun evs u p c d recv r hr => collect_err_classification evs u p c d recv r hr⟩
  cases d1 <;> cases d2 <;> cases d3 <;>
    first
      | exact absurd rfl h12
      | exact absurd rfl h13
      | exact absurd rfl h23
      | simp [runAll, scatterGather, eventsOf, depResult, collect_cons_result, collect_nil,
          hu, hp, hv]

/-- C3 witness: concrete context failure arriving first, criticals after. -/
theorem C3_witness :
    runAll [Dep.vector, Dep.user, Dep.perms]
        ⟨some uEx, none, some pEx, none, none, some "vector down"⟩ =
      some ⟨some uEx, some pEx, none, true, none⟩ := by
  have h := C3_optional_failure_degrades
    ⟨some uEx, none, some pEx, none, none, some "vector down"⟩ "vector down"
    Dep.vector Dep.user Dep.perms (by decide) (by decide) (by decide) rfl rfl rfl
  simpa using h.1

/-- C6: with no critical error, the value scatterGather returns is the
same for every arrival order of the three outcomes. -/
theorem C6_order_independence (o : Outcomes) (d1 d2 d3 : Dep)
    (h12 : d1 ≠ d2) (h13 : d1 ≠ d3) (h23 : d2 ≠ d3)
    (hu : o.userErr = none) (hp : o.permErr = none) :
    runAll [d1, d2, d3] o = runAll [Dep.user, Dep.perms, Dep.vector] o := by
  cases d1 <;> cases d2 <;> cases d3 <;>
    first
      | exact absurd rfl h12
      | exact absurd rfl h13
      | exact absurd rfl h23
      | (rcases hv : o.vecErr with _ | e <;>
          simp [runAll, scatterGather, eventsOf, depResult, collect_cons_result, collect_nil,
            hu, hp, hv])

/-- C6 witness: a reversed arrival order gives the same value as the
dispatch order on concrete all-success outcomes. -/
theorem C6_witness :
    runAll [Dep.vector, Dep.perms, Dep.user] oEx =
      runAll [Dep.user, Dep.perms, Dep.vector] oEx := by
  exact C6_order_independence oEx Dep.vector Dep.perms Dep.user
    (by decide) (by decide) (by decide) rfl rfl

/-- C5: on a valid request where all three dependencies succeed before
the deadline (any arrival order), scatterGather returns all three
payloads with degraded false and the handler responds 200 with all three
fields present. -/
theorem C5_all_success (method userID chatID : String)
    (huid : userID ≠ "") (hcid : chatID ≠ "") (o : Outcomes)
    (up : GetUserResponse) (pp : CheckAccessResponse) (cp : GetContextResponse)
    (d1 d2 d3 : Dep) (h12 : d1 ≠ d2) (h13 : d1 ≠ d3) (h23 : d2 ≠ d3)
    (hu : o.userErr = none) (hp : o.permErr = none) (hv : o.vecErr = none)
    (hup : o.userPayload = some up) (hpp : o.permPayload = some pp)
    (hcp : o.vecPayload = some cp) :
    runAll [d1, d2, d3] o = some ⟨some up, some pp, some cp, false, none⟩ ∧
    serveHTTP method userID chatID ⟨some up, some pp, some cp, false, none⟩ =
      ⟨200, Body.successBody ⟨some up, some pp, some cp, false⟩⟩ := by
  constructor
  · cases d1 <;> cases d2 <;> cases d3 <;>
      first
        | exact absurd rfl h12
        | exact absurd rfl h13
        | exact absurd rfl h23
        | simp [runAll, scatterGather, eventsOf, depResult, collect_cons_result, collect_nil,
            hu, hp, hv, hup, hpp, hcp]
  · simp [serveHTTP, huid, hcid]

/-- C5 witness: concrete all-success run in dispatch order. -/
theorem C5_witness :
    runAll [Dep.user, Dep.perms, Dep.vector] oEx =
      some ⟨some uEx, some pEx, some cEx, false, none⟩ ∧
    serveHTTP "GET" "user123" "chat1" ⟨some uEx, some pEx, some cEx, false, none⟩ =
      ⟨200, Body.successBody ⟨some uEx, some pEx, some cEx, false⟩⟩ := by
  exact C5_all_success "GET" "user123" "chat1" (by decide) (by decide) oEx uEx pEx cEx
    Dep.user Dep.perms Dep.vector (by decide) (by decide) (by decide)
    rfl rfl rfl rfl rfl rfl

/-- C7: a request missing user_id or chat_id gets a 400 error body whose
code is 400 and whose message contains the missing field name, and the
response does not depend on any aggregation outcome (the aggregator is
never invoked). -/
theorem C7_validation_rejects (method userID chatID : String) (g g2 : GatherReturn)
    (h : userID = "" ∨ chatID = "") :
    serveHTTP method userID chatID g = serveHTTP method userID chatID g2 ∧
    (serveHTTP method userID chatID g).status = 400 ∧
    (serveHTTP method userID chatID g).body =
      Body.errBody ⟨statusText 400, 400, "user_id and chat_id are required"⟩ ∧
    (userID = "" → strContains "user_id and chat_id are required" "user_id" = true) ∧
    (chatID = "" → strContains "user_id and chat_id are required" "chat_id" = true) := by
  refine ⟨?_, ?_, ?_, fun _ => by decide, fun _ => by decide⟩ <;>
    simp [serveHTTP, sendError, if_pos h]

/-- C7 witness: empty user_id with two different would-be aggregation
outcomes gives the same 400 response naming user_id. -/
theorem C7_witness :
    serveHTTP "GET" "" "chat1" ⟨some uEx, some pEx, some cEx, false, none⟩ =
      serveHTTP "GET" "" "chat1" ⟨none, none, none, false, some "anything"⟩ ∧
    (serveHTTP "GET" "" "chat1" ⟨some uEx, some pEx, some cEx, false, none⟩).status = 400 ∧
    (serveHTTP "GET" "" "chat1" ⟨some uEx, some pEx, some cEx, false, none⟩).body =
      Body.errBody ⟨statusText 400, 400, "user_id and chat_id are required"⟩ ∧
    (("" : String) = "" → strContains "user_id and chat_id are required" "user_id" = true) ∧
    (("chat1" : String) = "" → strContains "user_id and chat_id are required" "chat_id" = true) := by
  exact C7_validation_rejects "GET" "" "chat1"
    ⟨some uEx, some pEx, some cEx, false, none⟩
    ⟨none, none, none, false, some "anything"⟩ (Or.inl rfl)

/-- C8: the handler never inspects the request method; a POST request
with valid parameters is served exactly like a GET, here yielding 200
rather than the 405 the spec and the repository's own test require. -/
theorem C8_method_never_checked :
    (∀ m1 m2 userID chatID : String, ∀ g : GatherReturn,
      serveHTTP m1 userID chatID g = serveHTTP m2 userID chatID g) ∧
    serveHTTP "POST" "user123" "chat1" ⟨some uEx, some pEx, some cEx, false, none⟩ =
      ⟨200, Body.successBody ⟨some uEx, some pEx, some cEx, false⟩⟩ ∧
    (serveHTTP "POST" "user123" "chat1"
        ⟨some uEx, some pEx, some cEx, false, none⟩).status ≠ 405 := by
  refine ⟨fun _ _ _ _ _ => rfl, by decide, by decide⟩

/-- C4 counterexample: the production vector client wrapper turns an
underlying failure into an empty success, so the end-to-end response is
200 with degraded false and the context field present (empty), not the
degraded-true context-absent response the claim states. -/
theorem C4_counterexample :
    vectorClientGetContext none (some "connection refused") = (some ⟨[], 0⟩, none) ∧
    runAll [Dep.user, Dep.perms, Dep.vector]
        ⟨some uEx, none, some pEx, none, some ⟨[], 0⟩, none⟩ =
      some ⟨some uEx, some pEx, some ⟨[], 0⟩, false, none⟩ ∧
    serveHTTP "GET" "user123" "chat1" ⟨some uEx, some pEx, some ⟨[], 0⟩, false, none⟩ ≠
      ⟨200, Body.successBody ⟨some uEx, some pEx, none, true⟩⟩ := by
  refine ⟨rfl, by decide, by decide⟩

/-- C4 amended: through the production wrapper, an underlying context
failure with both criticals succeeding yields 200 with degraded false
and the context field present holding the empty payload. -/
theorem C4_amended_wrapper_empty_success (method userID chatID : String)
    (huid : userID ≠ "") (hcid : chatID ≠ "")
    (up : GetUserResponse) (pp : CheckAccessResponse)
    (uresp : Option GetContextResponse) (e : String)
    (d1 d2 d3 : Dep) (h12 : d1 ≠ d2) (h13 : d1 ≠ d3) (h23 : d2 ≠ d3) :
    runAll [d1, d2, d3]
        ⟨some up, none, some pp, none,
         (vectorClientGetContext uresp (some e)).1,
         (vectorClientGetContext uresp (some e)).2⟩ =
      some ⟨some up, some pp, some ⟨[], 0⟩, false, none⟩ ∧
    serveHTTP method userID chatID ⟨some up, some pp, some ⟨[], 0⟩, false, none⟩ =
      ⟨200, Body.successBody ⟨some up, some pp, some ⟨[], 0⟩, false⟩⟩ := by
  constructor
  · cases d1 <;> cases d2 <;> cases d3 <;>
      first
        | exact absurd rfl h12
        | exact absurd rfl h13
        | exact absurd rfl h23
        | simp [runAll, scatterGather, eventsOf, depResult, collect_cons_result, collect_nil,
            vectorClientGetContext]
  · simp [serveHTTP, huid, hcid]

/-- C4 amended witness: concrete wrapper-swallowed failure, criticals
succeeding, context arriving first. -/
theorem C4_amended_witness :
    runAll [Dep.vector, Dep.user, Dep.perms]
        ⟨some uEx, none, some pEx, none,
         (vectorClientGetContext none (some "connection refused")).1,
         (vectorClientGetContext none (some "connection refused")).2⟩ =
      some ⟨some uEx, some pEx, some ⟨[], 0⟩, false, none⟩ ∧
    serveHTTP "GET" "user123" "chat1" ⟨some uEx, some pEx, some ⟨[], 0⟩, false, none⟩ =
      ⟨200, Body.successBody ⟨some uEx, some pEx, some ⟨[], 0⟩, false⟩⟩ := by
  exact C4_amended_wrapper_empty_success "GET" "user123" "chat1" (by decide) (by decide)
    uEx pEx none "connection refused" Dep.vector Dep.user Dep.perms
    (by decide) (by decide) (by decide)

/-- C9 counterexample: sendJSON writes the status line before encoding,
so when the encoder fails on a 200 response the status stays 200; it is
not downgraded to 500 (the error is only logged, the body is empty). -/
theorem C9_counterexample :
    (sendJSON_wire 200 none).status = 200 ∧ (sendJSON_wire 200 none).status ≠ 500 := by
  decide

/-- C9 amended: on serialization failure the already-written status code
is retained unchanged and the body is empty; no downgrade occurs. -/
theorem C9_amended_status_retained (statusCode : Nat) :
    sendJSON_wire statusCode none = ⟨statusCode, ""⟩ := rfl

end RSG
